import Mathlib

/-!
Shallow embedding of the twodo Flask application (src/app.py): a small
multi-user to-do / mood / notes app where two accounts can be linked as
partners.  Rows of the PostgreSQL tables become Lean structures, each route
handler becomes a pure function on an explicit database state, and the
session user id is passed explicitly.  Machine-level concerns that the
claims do not depend on (SQL foreign-key enforcement, wall-clock
timestamps) are modelled by plain fields: timestamps come from a
monotonically increasing counter stored in the state, matations being the
only consumers.
-/

namespace Twodo

/-- Row of the `users` table (app.py, init_db): serial id, unique username,
password hash, display name, nullable partner reference. -/
structure User where
  id : Nat
  username : String
  password : String
  display_name : String
  partner_id : Option Nat
deriving DecidableEq, Repr

/-- Row of the `todos` table: serial id, owning user, text, done flag stored
as an integer 0/1, creation timestamp. -/
structure Todo where
  id : Nat
  user_id : Nat
  text : String
  done : Nat
  created_at : Nat
deriving DecidableEq, Repr

/-- Row of the `moods` table. -/
structure Mood where
  id : Nat
  user_id : Nat
  score : Int
  note : String
  created_at : Nat
deriving DecidableEq, Repr

/-- Row of the `notes` table: sender, receiver, message, read flag stored as
an integer 0/1, creation timestamp. -/
structure Note where
  id : Nat
  from_user : Nat
  to_user : Nat
  message : String
  read : Nat
  created_at : Nat
deriving DecidableEq, Repr

/-- The database state: the four tables the routes touch (`date_ideas` has
no routes), the serial counters, and a clock supplying `CURRENT_TIMESTAMP`
values for inserts. -/
structure DB where
  users : List User
  todos : List Todo
  moods : List Mood
  notes : List Note
  nextUserId : Nat
  nextTodoId : Nat
  nextMoodId : Nat
  nextNoteId : Nat
  clock : Nat
deriving DecidableEq, Repr

/-- The empty database right after `init_db`: no rows, serial counters at 1
(PostgreSQL SERIAL starts at 1). -/
def initDB : DB :=
  { users := [], todos := [], moods := [], notes := [],
    nextUserId := 1, nextTodoId := 1, nextMoodId := 1, nextNoteId := 1, clock := 0 }

/-- A flash message (category success or error), as produced by `flash(...)`
in the handlers. -/
inductive Flash where
  | success (msg : String)
  | error (msg : String)
deriving DecidableEq, Repr

/-- Outcome of one request.  `redirectTo` and `render` are normal handler
returns carrying their flash messages; `fatal` models a Python exception
escaping the handler uncaught (the framework then answers HTTP 500 — the
error is NOT recovered within the handler). -/
inductive Response where
  | redirectTo (endpoint : String) (flashes : List Flash)
  | render (template : String) (flashes : List Flash)
  | fatal (exc : String)
deriving DecidableEq, Repr

/-- Whitespace recognized by Python `str.strip()` (ASCII model). -/
def isSpace (c : Char) : Bool :=
  c == ' ' || c == '\t' || c == '\n' || c == '\r'

/-- Drop leading and trailing whitespace from a character list. -/
def stripChars (l : List Char) : List Char :=
  ((l.dropWhile isSpace).reverse.dropWhile isSpace).reverse

/-- Python `s.strip()`. -/
def pyStrip (s : String) : String := ⟨stripChars s.data⟩

/-- Python truthiness of a string: non-empty is truthy. -/
def pyTruthy (s : String) : Bool := !s.data.isEmpty

/-- Lowercase one character (ASCII model of Python `str.lower()`). -/
def lowerChar (c : Char) : Char :=
  if 'A' ≤ c && c ≤ 'Z' then Char.ofNat (c.toNat + 32) else c

/-- Python `s.strip().lower()` applied to username form fields before use. -/
def stripLower (s : String) : String := ⟨(stripChars s.data).map lowerChar⟩

/-- Decimal digit test. -/
def digit? (c : Char) : Bool := '0' ≤ c && c ≤ '9'

/-- Numeric value of a run of decimal digits. -/
def digitsVal (l : List Char) : Nat :=
  l.foldl (fun a c => a * 10 + (c.toNat - 48)) 0

/-- Modelled from the external werkzeug library: `generate_password_hash`
produces a one-way salted hash.  The model tags the password so that the
raw password is recoverable only through `check_password_hash`. -/
def generate_password_hash (p : String) : String := "pbkdf2:" ++ p

/-- Modelled from the external werkzeug library: verification succeeds
exactly when the submitted password matches the hashed one. -/
def check_password_hash (h p : String) : Bool := h == generate_password_hash p

/-- Python `int(s)` on a decimal string: leading/trailing whitespace is
tolerated, anything else that is not an optionally signed non-empty run of
digits raises `ValueError` (modelled as `none`). -/
def pyInt (s : String) : Option Int :=
  match stripChars s.data with
  | [] => none
  | '-' :: ds =>
      if !ds.isEmpty && ds.all digit? then some (-(digitsVal ds : Int)) else none
  | '+' :: ds =>
      if !ds.isEmpty && ds.all digit? then some (digitsVal ds) else none
  | ds =>
      if ds.all digit? then some (digitsVal ds) else none

/-- Lookup of a user row by primary key in a users table. -/
def findUser (users : List User) (i : Nat) : Option User :=
  users.find? (fun u => u.id == i)

/-- Lookup of a user row by primary key (`SELECT * FROM users WHERE id = ...`,
as in `current_user`). -/
def userById (db : DB) (i : Nat) : Option User :=
  findUser db.users i

/-- Lookup of a user row by username (`SELECT * FROM users WHERE username = ...`). -/
def userByName (db : DB) (name : String) : Option User :=
  db.users.find? (fun u => u.username == name)

/-- Handler for POST `/register` (app.py lines 178-202): normalizes the
username, trims the display name, hashes the password, inserts; a uniqueness
violation on `username` is caught, the transaction rolled back and an error
flashed. -/
def register (usernameField displayField passwordField : String) (db : DB) :
    DB × Response :=
  let username := stripLower usernameField
  let display_name := pyStrip displayField
  let password := generate_password_hash passwordField
  if db.users.any (fun u => u.username == username) then
    (db, .render "register.html" [.error "That username is taken"])
  else
    ({ db with
        users := db.users ++
          [{ id := db.nextUserId, username := username, password := password,
             display_name := display_name, partner_id := none }],
        nextUserId := db.nextUserId + 1 },
     .redirectTo "login" [.success "Account created! Log in now"])

/-- Handler for POST `/login` (app.py lines 155-175): looks up the normalized
username, verifies the password hash; on success stores the user id in the
session, otherwise flashes one generic failure message.  Returns the new
session value together with the response. -/
def login (usernameField passwordField : String) (db : DB) (sess : Option Nat) :
    Option Nat × Response :=
  let username := stripLower usernameField
  match userByName db username with
  | some user =>
      if check_password_hash user.password passwordField then
        (some user.id, .redirectTo "dashboard" [])
      else
        (sess, .render "login.html" [.error "Wrong username or password"])
  | none => (sess, .render "login.html" [.error "Wrong username or password"])

/-- One `UPDATE users SET partner_id = %s WHERE id = %s` statement. -/
def setPartner (db : DB) (targetId newPartnerId : Nat) : DB :=
  { db with
      users := db.users.map (fun u =>
        if u.id == targetId then { u with partner_id := some newPartnerId } else u) }

/-- Handler for POST `/link-partner` (app.py lines 205-233): `uid` is the
session user id; the handler first resolves the current user row, looks up
the target by normalized username, rejects a missing target or self-link
with a flash and no state change, and otherwise runs the two UPDATE
statements followed by one commit.  When the session id resolves to no row,
`current_user()` is `None` and evaluating `user['id']` raises `TypeError`
before any update. -/
def link_partner (uid : Nat) (partnerUsernameField : String) (db : DB) :
    DB × Response :=
  let partner_username := stripLower partnerUsernameField
  match userByName db partner_username with
  | none => (db, .render "link_partner.html" [.error "Could not find that user"])
  | some partner =>
      match userById db uid with
      | none => (db, .fatal "TypeError")
      | some user =>
          if partner.id == user.id then
            (db, .render "link_partner.html"
              [.error "That is you! Enter the username of your partner"])
          else
            (setPartner (setPartner db user.id partner.id) partner.id user.id,
             .redirectTo "dashboard" [.success "Linked"])

/-- The `get_partner` helper (app.py lines 132-141): given the (possibly
absent) current user row, return the partner row or `none` when unlinked. -/
def get_partner (db : DB) (user : Option User) : Option User :=
  match user with
  | none => none
  | some u =>
      match u.partner_id with
      | none => none
      | some pid => userById db pid

/-- Boolean comparison realizing `ORDER BY done ASC, created_at DESC` on the
`todos` table. -/
def todoOrder (a b : Todo) : Bool :=
  decide (a.done < b.done) || (a.done == b.done && decide (b.created_at ≤ a.created_at))

/-- The query `SELECT * FROM todos WHERE user_id = %s ORDER BY done ASC,
created_at DESC` issued by the dashboard for the user and for the partner. -/
def listForUser (db : DB) (uid : Nat) : List Todo :=
  (db.todos.filter (fun t => t.user_id == uid)).mergeSort todoOrder

/-- Handler for GET `/dashboard` (app.py lines 246-275): resolves the current
user (a missing row would crash on `user['id']`, modelled as `none`), the
partner, and the two ordered todo lists. -/
def dashboard (uid : Nat) (db : DB) : Option (List Todo × List Todo) :=
  match userById db uid with
  | none => none
  | some user =>
      let my_todos := listForUser db user.id
      let partner_todos :=
        match get_partner db (some user) with
        | some p => listForUser db p.id
        | none => []
      some (my_todos, partner_todos)

/-- Handler for POST `/todo/add` (app.py lines 283-294): trims the text, and
only when it is non-empty inserts a row owned by the session user. -/
def add_todo (uid : Nat) (textField : String) (db : DB) : DB × Response :=
  let text := pyStrip textField
  if !pyTruthy text then (db, .redirectTo "dashboard" [])
  else
    ({ db with
        todos := db.todos ++
          [{ id := db.nextTodoId, user_id := uid, text := text,
             done := 0, created_at := db.clock }],
        nextTodoId := db.nextTodoId + 1, clock := db.clock + 1 },
     .redirectTo "dashboard" [])

/-- Handler for GET `/todo/toggle/<id>` (app.py lines 297-309): fetches the
row by id, and only when it exists and is owned by the session user flips
the done flag (Python truthiness: 0 becomes 1, anything non-zero becomes 0). -/
def toggle_todo (uid todo_id : Nat) (db : DB) : DB × Response :=
  let db' :=
    match db.todos.find? (fun t => t.id == todo_id) with
    | some todo =>
        if todo.user_id == uid then
          let new_state : Nat := if todo.done != 0 then 0 else 1
          { db with
              todos := db.todos.map (fun t =>
                if t.id == todo_id then { t with done := new_state } else t) }
        else db
    | none => db
  (db', .redirectTo "dashboard" [])

/-- Handler for GET `/todo/delete/<id>` (app.py lines 312-321): one DELETE
statement matching both the id and the owning user. -/
def delete_todo (uid todo_id : Nat) (db : DB) : DB × Response :=
  ({ db with
      todos := db.todos.filter (fun t => !(t.id == todo_id && t.user_id == uid)) },
   .redirectTo "dashboard" [])

/-- Handler for POST `/mood/log` (app.py lines 328-341): `int(request.form)`
runs before anything else; a malformed score raises `ValueError` which no
`try` in the handler catches, so nothing is inserted and the exception
escapes the handler.  Otherwise the mood row is appended. -/
def log_mood (uid : Nat) (scoreField noteField : String) (db : DB) :
    DB × Response :=
  match pyInt scoreField with
  | none => (db, .fatal "ValueError")
  | some score =>
      let note := pyStrip noteField
      ({ db with
          moods := db.moods ++
            [{ id := db.nextMoodId, user_id := uid, score := score,
               note := note, created_at := db.clock }],
          nextMoodId := db.nextMoodId + 1, clock := db.clock + 1 },
       .redirectTo "dashboard" [])

/-- A row of the notes listing: the note joined with the display names of
sender and receiver (`u1.display_name AS sender_name`, `u2.display_name AS
receiver_name`). -/
structure NoteView where
  note : Note
  sender_name : String
  receiver_name : String
deriving DecidableEq, Repr

/-- Effect of `UPDATE notes SET read = 1 WHERE to_user = %s` on one row. -/
def markRead (uid : Nat) (n : Note) : Note :=
  if n.to_user == uid then { n with read := 1 } else n

/-- Boolean comparison realizing `ORDER BY notes.created_at DESC`. -/
def noteOrder (a b : NoteView) : Bool :=
  decide (b.note.created_at ≤ a.note.created_at)

/-- Inner join of one note row with the `users` table on `from_user` and
`to_user` (`JOIN users u1 ... JOIN users u2 ...`): a note whose endpoints do
not resolve produces no output row. -/
def annotateNote (users : List User) (n : Note) : Option NoteView :=
  match findUser users n.from_user, findUser users n.to_user with
  | some u1, some u2 =>
      some { note := n, sender_name := u1.display_name,
             receiver_name := u2.display_name }
  | _, _ => none

/-- Handler for GET `/notes` (app.py lines 348-373): a missing current user
would crash on `user['id']` before the UPDATE (modelled as `none`); otherwise
every note addressed to the user is marked read and committed, then the notes
where the user is sender or receiver are returned newest first, inner-joined
with the two user rows for display names. -/
def notes (uid : Nat) (db : DB) : DB × Option (List NoteView) :=
  match userById db uid with
  | none => (db, none)
  | some user =>
      let db' := { db with notes := db.notes.map (markRead user.id) }
      let mine := db'.notes.filter
        (fun n => n.from_user == user.id || n.to_user == user.id)
      let annotated := mine.filterMap (annotateNote db'.users)
      (db', some (annotated.mergeSort noteOrder))

/-- Handler for POST `/notes/send` (app.py lines 376-394): the trimmed
message is inserted as an unread note to the partner only when it is
non-empty and a partner row resolves; otherwise nothing changes. -/
def send_note (uid : Nat) (messageField : String) (db : DB) : DB × Response :=
  let user? := userById db uid
  let partner? := get_partner db user?
  let message := pyStrip messageField
  match partner?, user? with
  | some p, some user =>
      if !pyTruthy message then (db, .redirectTo "notes" [])
      else
        ({ db with
            notes := db.notes ++
              [{ id := db.nextNoteId, from_user := user.id, to_user := p.id,
                 message := message, read := 0, created_at := db.clock }],
            nextNoteId := db.nextNoteId + 1, clock := db.clock + 1 },
         .redirectTo "notes" [.success "Note sent"])
  | _, _ => (db, .redirectTo "notes" [])

/-- One exposed operation of the application, with the session user id made
explicit where a handler uses it. -/
inductive Op where
  | opRegister (username display password : String)
  | opLogin (username password : String)
  | opLogout
  | opLinkPartner (uid : Nat) (partnerUsername : String)
  | opDashboard (uid : Nat)
  | opAddTodo (uid : Nat) (text : String)
  | opToggleTodo (uid todoId : Nat)
  | opDeleteTodo (uid todoId : Nat)
  | opLogMood (uid : Nat) (score note : String)
  | opNotes (uid : Nat)
  | opSendNote (uid : Nat) (message : String)
deriving DecidableEq, Repr

/-- Database effect of one operation.  Login, logout and the dashboard read
the database but never write it. -/
def step (op : Op) (db : DB) : DB :=
  match op with
  | .opRegister u d p => (register u d p db).1
  | .opLogin _ _ => db
  | .opLogout => db
  | .opLinkPartner uid pu => (link_partner uid pu db).1
  | .opDashboard _ => db
  | .opAddTodo uid t => (add_todo uid t db).1
  | .opToggleTodo uid i => (toggle_todo uid i db).1
  | .opDeleteTodo uid i => (delete_todo uid i db).1
  | .opLogMood uid s n => (log_mood uid s n db).1
  | .opNotes uid => (notes uid db).1
  | .opSendNote uid m => (send_note uid m db).1

/-- Run a sequence of operations from a starting state. -/
def run (db : DB) : List Op → DB
  | [] => db
  | op :: rest => run (step op db) rest

/-- The partner-symmetry property of a state: whenever one user row points at
another, that row points back (references are ids, and a set reference is
never to an unset row). -/
def PartnerSymm (db : DB) : Prop :=
  ∀ a ∈ db.users, ∀ b ∈ db.users, a.partner_id = some b.id → b.partner_id = some a.id

instance (db : DB) : Decidable (PartnerSymm db) := by
  unfold PartnerSymm
  exact inferInstance

/-- Combined effect on one user row of the two UPDATE statements of a
successful link between the user with id `t1` and the partner with id `t2`. -/
def linkApply (t1 t2 : Nat) (u : User) : User :=
  if u.id == t2 then { u with partner_id := some t1 }
  else if u.id == t1 then { u with partner_id := some t2 }
  else u

/-- Well-formedness of the user table that the store's SERIAL and UNIQUE
machinery guarantees: ids are below the next serial value, ids are distinct,
and partner references only mention already-allocated ids. -/
def IdsOk (db : DB) : Prop :=
  (∀ u ∈ db.users, u.id < db.nextUserId) ∧
  (db.users.map User.id).Nodup ∧
  (∀ u ∈ db.users, ∀ p, u.partner_id = some p → p < db.nextUserId)

/-- An operation is re-link-free in a state when, if it is a LinkPartner that
will succeed, the two parties are each either unlinked or already linked to
the other (so no old partner is left dangling). -/
def linkSafe (db : DB) (op : Op) : Bool :=
  match op with
  | .opLinkPartner uid pu =>
      match userByName db (stripLower pu), userById db uid with
      | some p, some cu =>
          p.id == cu.id ||
          ((cu.partner_id == none || cu.partner_id == some p.id) &&
           (p.partner_id == none || p.partner_id == some cu.id))
      | _, _ => true
  | _ => true

/-- A sequence of operations is re-link-free when every step is. -/
def safeSeq (db : DB) : List Op → Bool
  | [] => true
  | op :: rest => linkSafe db op && safeSeq (step op db) rest

/-- Operation sequence whose final state violates partner symmetry: amy links
with ben, then re-links with cal, leaving ben pointing at amy while amy
points at cal. -/
def cexOps : List Op :=
  [.opRegister "amy" "Amy" "pw1", .opRegister "ben" "Ben" "pw2",
   .opRegister "cal" "Cal" "pw3",
   .opLinkPartner 1 "ben", .opLinkPartner 1 "cal"]

/-- Concrete populated state used to instantiate the theorems: alice and bob
are linked partners, carol is unlinked; alice owns one done and one pending
todo, bob owns one pending todo; one unread note from alice to bob. -/
def sampleDB : DB :=
  { users :=
      [{ id := 1, username := "alice", password := generate_password_hash "pw1",
         display_name := "Alice", partner_id := some 2 },
       { id := 2, username := "bob", password := generate_password_hash "pw2",
         display_name := "Bob", partner_id := some 1 },
       { id := 3, username := "carol", password := generate_password_hash "pw3",
         display_name := "Carol", partner_id := none }],
    todos :=
      [{ id := 1, user_id := 1, text := "buy milk", done := 1, created_at := 0 },
       { id := 2, user_id := 1, text := "walk dog", done := 0, created_at := 1 },
       { id := 3, user_id := 2, text := "cook", done := 0, created_at := 2 }],
    moods := [],
    notes :=
      [{ id := 1, from_user := 1, to_user := 2, message := "hi", read := 0,
         created_at := 3 }],
    nextUserId := 4, nextTodoId := 4, nextMoodId := 1, nextNoteId := 2, clock := 4 }

/-! Helper lemmas about the double partner update. -/

theorem linkApply_id (t1 t2 : Nat) (u : User) : (linkApply t1 t2 u).id = u.id := by
  unfold linkApply
  split
  · rfl
  · split <;> rfl

theorem linkApply_partner (t1 t2 : Nat) (u : User) (hne : t2 ≠ t1) :
    (linkApply t1 t2 u).partner_id =
      if u.id = t2 then some t1 else if u.id = t1 then some t2 else u.partner_id := by
  have hne' : t1 ≠ t2 := Ne.symm hne
  unfold linkApply
  by_cases h2 : u.id = t2
  · simp [h2, hne]
  · by_cases h1 : u.id = t1 <;> simp [h1, h2, hne, hne']

theorem double_setPartner (db : DB) (t1 t2 : Nat) (hne : t2 ≠ t1) :
    (setPartner (setPartner db t1 t2) t2 t1).users = db.users.map (linkApply t1 t2) := by
  have hne' : t1 ≠ t2 := Ne.symm hne
  unfold setPartner
  dsimp only
  rw [List.map_map]
  apply List.map_congr_left
  intro u _
  simp only [Function.comp_apply, linkApply]
  by_cases h1 : u.id = t1
  · have h2 : u.id ≠ t2 := by rw [h1]; exact hne'
    simp [h1, h2, hne, hne']
  · by_cases h2 : u.id = t2 <;> simp [h1, h2, hne, hne']

/-! Preservation of the table well-formedness and of partner symmetry by
every operation, provided links are re-link-free. -/

theorem idsOk_of_eq {db db' : DB} (h1 : db'.users = db.users)
    (h2 : db'.nextUserId = db.nextUserId) (h : IdsOk db) : IdsOk db' := by
  unfold IdsOk at h ⊢
  rw [h1, h2]
  exact h

theorem symm_of_eq {db db' : DB} (h1 : db'.users = db.users)
    (h : PartnerSymm db) : PartnerSymm db' := by
  unfold PartnerSymm at h ⊢
  rw [h1]
  exact h

theorem symm_link (uid : Nat) (pu : String) (db : DB)
    (hids : IdsOk db) (hs : PartnerSymm db)
    (hsafe : linkSafe db (.opLinkPartner uid pu) = true) :
    PartnerSymm (link_partner uid pu db).1 := by
  unfold link_partner
  rcases hfind : userByName db (stripLower pu) with _ | p
  · simp only [hfind]
    exact hs
  · rcases hcu : userById db uid with _ | cu
    · simp only [hfind, hcu]
      exact hs
    · simp only [hfind, hcu, beq_iff_eq]
      by_cases hpe : p.id = cu.id
      · rw [if_pos hpe]
        exact hs
      · rw [if_neg hpe]
        dsimp only
        have hpmem : p ∈ db.users := List.mem_of_find?_eq_some hfind
        have hcumem : cu ∈ db.users := List.mem_of_find?_eq_some hcu
        simp only [linkSafe, hfind, hcu] at hsafe
        simp only [beq_iff_eq, hpe, Bool.false_or, Bool.or_eq_true,
          Bool.and_eq_true, false_or] at hsafe
        obtain ⟨hcup, hpp⟩ := hsafe
        intro a' ha' b' hb' hab
        rw [double_setPartner db cu.id p.id hpe] at ha' hb'
        obtain ⟨a, ha, rfl⟩ := List.mem_map.1 ha'
        obtain ⟨b, hb, rfl⟩ := List.mem_map.1 hb'
        rw [linkApply_id] at hab
        rw [linkApply_partner _ _ _ hpe] at hab
        rw [linkApply_partner _ _ _ hpe, linkApply_id]
        by_cases ha2 : a.id = p.id
        · rw [if_pos ha2] at hab
          have hbid : b.id = cu.id := (Option.some.inj hab).symm
          rw [if_neg (by omega), if_pos hbid]
          simp [ha2]
        · by_cases ha1 : a.id = cu.id
          · rw [if_neg ha2, if_pos ha1] at hab
            have hbid : b.id = p.id := (Option.some.inj hab).symm
            rw [if_pos hbid]
            simp [ha1]
          · rw [if_neg ha2, if_neg ha1] at hab
            have hba := hs a ha b hb hab
            by_cases hb2 : b.id = p.id
            · exfalso
              have hbp : b = p := List.inj_on_of_nodup_map hids.2.1 hb hpmem hb2
              rw [hbp] at hba
              rcases hpp with h | h
              · rw [h] at hba
                exact Option.noConfusion hba
              · rw [h] at hba
                exact ha1 (Option.some.inj hba).symm
            · by_cases hb1 : b.id = cu.id
              · exfalso
                have hbc : b = cu := List.inj_on_of_nodup_map hids.2.1 hb hcumem hb1
                rw [hbc] at hba
                rcases hcup with h | h
                · rw [h] at hba
                  exact Option.noConfusion hba
                · rw [h] at hba
                  exact ha2 (Option.some.inj hba).symm
              · rw [if_neg hb2, if_neg hb1]
                exact hba

theorem idsOk_link (uid : Nat) (pu : String) (db : DB) (hids : IdsOk db) :
    IdsOk (link_partner uid pu db).1 := by
  unfold link_partner
  rcases hfind : userByName db (stripLower pu) with _ | p
  · simp only [hfind]
    exact hids
  · rcases hcu : userById db uid with _ | cu
    · simp only [hfind, hcu]
      exact hids
    · simp only [hfind, hcu, beq_iff_eq]
      by_cases hpe : p.id = cu.id
      · rw [if_pos hpe]
        exact hids
      · rw [if_neg hpe]
        dsimp only
        have hpmem : p ∈ db.users := List.mem_of_find?_eq_some hfind
        have hcumem : cu ∈ db.users := List.mem_of_find?_eq_some hcu
        have hus := double_setPartner db cu.id p.id hpe
        have hnext : (setPartner (setPartner db cu.id p.id) p.id cu.id).nextUserId
            = db.nextUserId := rfl
        unfold IdsOk
        rw [hus, hnext]
        refine ⟨?_, ?_, ?_⟩
        · intro x hx
          obtain ⟨a, ha, rfl⟩ := List.mem_map.1 hx
          rw [linkApply_id]
          exact hids.1 a ha
        · have hcongr : List.map (User.id ∘ linkApply cu.id p.id) db.users
              = List.map User.id db.users :=
            List.map_congr_left (fun a _ => linkApply_id cu.id p.id a)
          rw [List.map_map, hcongr]
          exact hids.2.1
        · intro x hx q hq
          obtain ⟨a, ha, rfl⟩ := List.mem_map.1 hx
          rw [linkApply_partner _ _ _ hpe] at hq
          split_ifs at hq with h1 h2
          · rw [← Option.some.inj hq]
            exact hids.1 cu hcumem
          · rw [← Option.some.inj hq]
            exact hids.1 p hpmem
          · exact hids.2.2 a ha q hq

theorem idsOk_register (uf df pf : String) (db : DB) (hids : IdsOk db) :
    IdsOk (register uf df pf db).1 := by
  unfold register
  dsimp only
  split
  · exact hids
  · obtain ⟨hb, hn, hp⟩ := hids
    refine ⟨?_, ?_, ?_⟩
    · intro x hx
      rcases List.mem_append.1 hx with h | h
      · exact Nat.lt_succ_of_lt (hb x h)
      · rw [List.mem_singleton.1 h]
        exact Nat.lt_succ_self _
    · rw [List.map_append]
      refine List.Nodup.append hn (by simp) ?_
      intro x hx1 hx2
      simp only [List.map_cons, List.map_nil, List.mem_singleton] at hx2
      obtain ⟨a, ha, rfl⟩ := List.mem_map.1 hx1
      have := hb a ha
      omega
    · intro x hx q hq
      rcases List.mem_append.1 hx with h | h
      · exact Nat.lt_succ_of_lt (hp x h q hq)
      · rw [List.mem_singleton.1 h] at hq
        exact Option.noConfusion hq

theorem symm_register (uf df pf : String) (db : DB) (hids : IdsOk db)
    (hs : PartnerSymm db) : PartnerSymm (register uf df pf db).1 := by
  unfold register
  dsimp only
  split
  · exact hs
  · intro a ha b hb hab
    rcases List.mem_append.1 ha with ha' | ha'
    · rcases List.mem_append.1 hb with hb' | hb'
      · exact hs a ha' b hb' hab
      · exfalso
        rw [List.mem_singleton.1 hb'] at hab
        exact Nat.lt_irrefl _ (hids.2.2 a ha' _ hab)
    · exfalso
      rw [List.mem_singleton.1 ha'] at hab
      exact Option.noConfusion hab

theorem add_todo_users (uid : Nat) (t : String) (db : DB) :
    ((add_todo uid t db).1).users = db.users ∧
    ((add_todo uid t db).1).nextUserId = db.nextUserId := by
  unfold add_todo
  dsimp only
  split <;> exact ⟨rfl, rfl⟩

theorem toggle_todo_users (uid i : Nat) (db : DB) :
    ((toggle_todo uid i db).1).users = db.users ∧
    ((toggle_todo uid i db).1).nextUserId = db.nextUserId := by
  unfold toggle_todo
  dsimp only
  rcases hf : List.find? (fun t => t.id == i) db.todos with _ | t
  · simp [hf]
  · simp only [hf]
    split <;> simp

theorem delete_todo_users (uid i : Nat) (db : DB) :
    ((delete_todo uid i db).1).users = db.users ∧
    ((delete_todo uid i db).1).nextUserId = db.nextUserId :=
  ⟨rfl, rfl⟩

theorem log_mood_users (uid : Nat) (s n : String) (db : DB) :
    ((log_mood uid s n db).1).users = db.users ∧
    ((log_mood uid s n db).1).nextUserId = db.nextUserId := by
  unfold log_mood
  rcases hv : pyInt s with _ | v <;> simp [hv]

theorem notes_users (uid : Nat) (db : DB) :
    ((notes uid db).1).users = db.users ∧
    ((notes uid db).1).nextUserId = db.nextUserId := by
  unfold notes
  rcases hu : userById db uid with _ | u <;> simp [hu]

theorem send_note_users (uid : Nat) (m : String) (db : DB) :
    ((send_note uid m db).1).users = db.users ∧
    ((send_note uid m db).1).nextUserId = db.nextUserId := by
  unfold send_note
  dsimp only
  rcases hu : userById db uid with _ | u
  · simp [hu, get_partner]
  · rcases hp : get_partner db (some u) with _ | p
    · simp [hu, hp]
    · simp only [hu, hp]
      split <;> simp

theorem idsOk_step (op : Op) (db : DB) (h : IdsOk db) : IdsOk (step op db) := by
  cases op with
  | opRegister u d p => exact idsOk_register u d p db h
  | opLogin u p => exact h
  | opLogout => exact h
  | opLinkPartner uid pu => exact idsOk_link uid pu db h
  | opDashboard uid => exact h
  | opAddTodo uid t =>
      exact idsOk_of_eq (add_todo_users uid t db).1 (add_todo_users uid t db).2 h
  | opToggleTodo uid i =>
      exact idsOk_of_eq (toggle_todo_users uid i db).1 (toggle_todo_users uid i db).2 h
  | opDeleteTodo uid i =>
      exact idsOk_of_eq (delete_todo_users uid i db).1 (delete_todo_users uid i db).2 h
  | opLogMood uid s n =>
      exact idsOk_of_eq (log_mood_users uid s n db).1 (log_mood_users uid s n db).2 h
  | opNotes uid =>
      exact idsOk_of_eq (notes_users uid db).1 (notes_users uid db).2 h
  | opSendNote uid m =>
      exact idsOk_of_eq (send_note_users uid m db).1 (send_note_users uid m db).2 h

theorem symm_step (op : Op) (db : DB) (hi : IdsOk db) (hs : PartnerSymm db)
    (hsafe : linkSafe db op = true) : PartnerSymm (step op db) := by
  cases op with
  | opRegister u d p => exact symm_register u d p db hi hs
  | opLogin u p => exact hs
  | opLogout => exact hs
  | opLinkPartner uid pu => exact symm_link uid pu db hi hs hsafe
  | opDashboard uid => exact hs
  | opAddTodo uid t => exact symm_of_eq (add_todo_users uid t db).1 hs
  | opToggleTodo uid i => exact symm_of_eq (toggle_todo_users uid i db).1 hs
  | opDeleteTodo uid i => exact symm_of_eq (delete_todo_users uid i db).1 hs
  | opLogMood uid s n => exact symm_of_eq (log_mood_users uid s n db).1 hs
  | opNotes uid => exact symm_of_eq (notes_users uid db).1 hs
  | opSendNote uid m => exact symm_of_eq (send_note_users uid m db).1 hs

theorem symm_run (ops : List Op) : ∀ (db : DB), IdsOk db → PartnerSymm db →
    safeSeq db ops = true → PartnerSymm (run db ops) := by
  induction ops with
  | nil =>
      intro db _ hs _
      exact hs
  | cons op rest ih =>
      intro db hi hs hsafe
      rw [run]
      unfold safeSeq at hsafe
      rw [Bool.and_eq_true] at hsafe
      exact ih (step op db) (idsOk_step op db hi) (symm_step op db hi hs hsafe.1) hsafe.2

theorem idsOk_init : IdsOk initDB := by
  refine ⟨?_, ?_, ?_⟩ <;> simp [initDB]

theorem symm_init : PartnerSymm initDB := by
  intro a ha
  simp [initDB] at ha

/-! Helper lemmas about the two SQL orderings and the notes join. -/

theorem todoOrder_trans : ∀ a b c : Todo, todoOrder a b → todoOrder b c → todoOrder a c := by
  intro a b c h1 h2
  simp only [todoOrder, Bool.or_eq_true, Bool.and_eq_true, decide_eq_true_eq,
    beq_iff_eq] at h1 h2 ⊢
  omega

theorem todoOrder_total : ∀ a b : Todo, todoOrder a b || todoOrder b a := by
  intro a b
  simp only [todoOrder, Bool.or_eq_true, Bool.and_eq_true, decide_eq_true_eq,
    beq_iff_eq]
  omega

theorem noteOrder_trans : ∀ a b c : NoteView, noteOrder a b → noteOrder b c → noteOrder a c := by
  intro a b c h1 h2
  simp only [noteOrder, decide_eq_true_eq] at h1 h2 ⊢
  omega

theorem noteOrder_total : ∀ a b : NoteView, noteOrder a b || noteOrder b a := by
  intro a b
  simp only [noteOrder, Bool.or_eq_true, decide_eq_true_eq]
  omega

theorem markRead_from (uid : Nat) (n : Note) : (markRead uid n).from_user = n.from_user := by
  unfold markRead
  split <;> rfl

theorem markRead_to (uid : Nat) (n : Note) : (markRead uid n).to_user = n.to_user := by
  unfold markRead
  split <;> rfl

theorem annotate_map_note (users : List User) (l : List Note)
    (h : ∀ n ∈ l, (findUser users n.from_user).isSome ∧ (findUser users n.to_user).isSome) :
    (l.filterMap (annotateNote users)).map NoteView.note = l := by
  induction l with
  | nil => rfl
  | cons n rest ih =>
      obtain ⟨h1, h2⟩ := h n (List.mem_cons_self n rest)
      obtain ⟨u1, hu1⟩ := Option.isSome_iff_exists.1 h1
      obtain ⟨u2, hu2⟩ := Option.isSome_iff_exists.1 h2
      rw [List.filterMap_cons]
      have he : annotateNote users n =
          some { note := n, sender_name := u1.display_name,
                 receiver_name := u2.display_name } := by
        unfold annotateNote
        rw [hu1, hu2]
      rw [he, List.map_cons]
      exact congrArg (List.cons n) (ih (fun m hm => h m (List.mem_cons_of_mem n hm)))

theorem annotate_mem (users : List User) (nv : NoteView) (l : List Note)
    (h : nv ∈ l.filterMap (annotateNote users)) :
    (∃ s, findUser users nv.note.from_user = some s ∧ nv.sender_name = s.display_name)
    ∧ (∃ r, findUser users nv.note.to_user = some r ∧ nv.receiver_name = r.display_name) := by
  obtain ⟨n, hn, he⟩ := List.mem_filterMap.1 h
  unfold annotateNote at he
  rcases h1 : findUser users n.from_user with _ | u1 <;> rw [h1] at he
  · exact Option.noConfusion he
  · rcases h2 : findUser users n.to_user with _ | u2 <;> rw [h2] at he
    · exact Option.noConfusion he
    · rw [← Option.some.inj he]
      exact ⟨⟨u1, h1, rfl⟩, ⟨u2, h2, rfl⟩⟩

/-! Claim theorems. -/

/-- Claim C1, counterexample: partner symmetry is NOT a global invariant of
the exposed operations.  From the empty state, registering amy, ben and cal,
linking amy with ben and then re-linking amy with cal produces a state where
ben.partner = amy but amy.partner = cal, so the symmetry property fails. -/
theorem C1_partner_symmetry_counterexample : ¬ PartnerSymm (run initDB cexOps) := by
  decide

/-- Claim C1, amended: partner symmetry holds after any sequence of exposed
operations that is re-link-free — every successful LinkPartner joins two
users that are each either unlinked or already linked to each other.  A
successful LinkPartner involving a user currently linked to a third user can
break symmetry (see the counterexample), as the old partner keeps a dangling
reference. -/
theorem C1_partner_symmetry_amended (ops : List Op)
    (h : safeSeq initDB ops = true) : PartnerSymm (run initDB ops) :=
  symm_run ops initDB idsOk_init symm_init h

theorem C1_partner_symmetry_amended_witness :
    safeSeq initDB
      [.opRegister "amy" "Amy" "pw1", .opRegister "ben" "Ben" "pw2",
       .opLinkPartner 1 "ben", .opLinkPartner 2 "amy"] = true ∧
    PartnerSymm (run initDB
      [.opRegister "amy" "Amy" "pw1", .opRegister "ben" "Ben" "pw2",
       .opLinkPartner 1 "ben", .opLinkPartner 2 "amy"]) :=
  ⟨by decide, C1_partner_symmetry_amended _ (by decide)⟩

/-- Claim C2: a LogMood request whose score field is not a well-formed
integer inserts no mood row — but the failure is an uncaught `ValueError`
escaping the handler (`int(request.form...)` runs outside any `try`), not a
validation error recovered within the handler as the specification
prescribes. -/
theorem C2_log_mood_malformed_score (uid : Nat) (sf nf : String) (db : DB)
    (h : pyInt sf = none) :
    log_mood uid sf nf db = (db, Response.fatal "ValueError") := by
  unfold log_mood
  rw [h]

theorem C2_log_mood_malformed_score_witness :
    pyInt "abc" = none ∧
    log_mood 1 "abc" "" initDB = (initDB, Response.fatal "ValueError") :=
  ⟨by decide, C2_log_mood_malformed_score 1 "abc" "" initDB (by decide)⟩

/-- Claim C3: a successful LinkPartner between distinct existing users
updates the whole users table in one step that sets the current user's
partner to the target and the target's partner to the current user (both
writes together), flashes success, and in general every LinkPartner call
either leaves the database unchanged or performs exactly this double
update. -/
theorem C3_link_partner_success_atomic (uid : Nat) (pu : String) (db : DB)
    (cu p : User) (hcu : userById db uid = some cu)
    (hp : userByName db (stripLower pu) = some p) (hne : p.id ≠ cu.id) :
    (link_partner uid pu db).1.users = db.users.map (linkApply cu.id p.id)
    ∧ (∀ u ∈ (link_partner uid pu db).1.users,
        (u.id = cu.id → u.partner_id = some p.id) ∧ (u.id = p.id → u.partner_id = some cu.id))
    ∧ (link_partner uid pu db).2 = .redirectTo "dashboard" [.success "Linked"]
    ∧ (∀ (uid2 : Nat) (pu2 : String) (db2 : DB),
        (link_partner uid2 pu2 db2).1 = db2 ∨
        ∃ cu2 p2, userById db2 uid2 = some cu2 ∧
          userByName db2 (stripLower pu2) = some p2 ∧ p2.id ≠ cu2.id ∧
          (link_partner uid2 pu2 db2).1.users = db2.users.map (linkApply cu2.id p2.id)) := by
  have hmain : ∀ (uid2 : Nat) (pu2 : String) (db2 : DB) (cu2 p2 : User),
      userById db2 uid2 = some cu2 → userByName db2 (stripLower pu2) = some p2 →
      p2.id ≠ cu2.id →
      (link_partner uid2 pu2 db2).1.users = db2.users.map (linkApply cu2.id p2.id) ∧
      (link_partner uid2 pu2 db2).2 = .redirectTo "dashboard" [.success "Linked"] := by
    intro uid2 pu2 db2 cu2 p2 hcu2 hp2 hne2
    unfold link_partner
    simp only [hp2, hcu2, beq_iff_eq]
    rw [if_neg hne2]
    exact ⟨double_setPartner db2 cu2.id p2.id hne2, rfl⟩
  obtain ⟨husers, hresp⟩ := hmain uid pu db cu p hcu hp hne
  refine ⟨husers, ?_, hresp, ?_⟩
  · intro u hu
    rw [husers] at hu
    obtain ⟨a, ha, rfl⟩ := List.mem_map.1 hu
    rw [linkApply_id, linkApply_partner _ _ _ hne]
    constructor
    · intro hid
      have ha2 : a.id ≠ p.id := by rw [hid]; exact fun h => hne h.symm
      rw [if_neg ha2, if_pos hid]
    · intro hid
      rw [if_pos hid]
  · intro uid2 pu2 db2
    rcases hcu2m : userById db2 uid2 with _ | cu2
    · left
      unfold link_partner
      rcases hp2m : userByName db2 (stripLower pu2) with _ | p2 <;> simp [hp2m, hcu2m]
    · rcases hp2m : userByName db2 (stripLower pu2) with _ | p2
      · left
        unfold link_partner
        simp [hp2m]
      · by_cases hne2 : p2.id = cu2.id
        · left
          unfold link_partner
          simp [hp2m, hcu2m, hne2]
        · right
          exact ⟨cu2, p2, rfl, rfl, hne2,
            (hmain uid2 pu2 db2 cu2 p2 hcu2m hp2m hne2).1⟩

theorem C3_link_partner_success_atomic_witness :
    (link_partner 3 "alice" sampleDB).2 = .redirectTo "dashboard" [.success "Linked"] :=
  (C3_link_partner_success_atomic 3 "alice" sampleDB
    ⟨3, "carol", generate_password_hash "pw3", "Carol", none⟩
    ⟨1, "alice", generate_password_hash "pw1", "Alice", some 2⟩
    (by decide) (by decide) (by decide)).2.2.1

/-- Claim C4: registering a username whose normalized form is already taken
fails with the uniqueness-conflict flash and leaves the database exactly as
it was — no new or partial row, and the existing row untouched. -/
theorem C4_register_duplicate_rejected (uf df pf : String) (db : DB) (u : User)
    (hu : u ∈ db.users) (hname : u.username = stripLower uf) :
    register uf df pf db = (db, .render "register.html" [.error "That username is taken"]) := by
  unfold register
  dsimp only
  rw [if_pos (List.any_eq_true.2 ⟨u, hu, by simp [hname]⟩)]

theorem C4_register_duplicate_rejected_witness :
    ((⟨1, "alice", generate_password_hash "pw1", "Alice", some 2⟩ : User) ∈ sampleDB.users) ∧
    register " ALICE " "Someone" "x" sampleDB =
      (sampleDB, .render "register.html" [.error "That username is taken"]) :=
  ⟨by decide, C4_register_duplicate_rejected " ALICE " "Someone" "x" sampleDB
    ⟨1, "alice", generate_password_hash "pw1", "Alice", some 2⟩ (by decide) (by decide)⟩

/-- Claim C5: when stored usernames are distinct, Login establishes a session
exactly for the user whose normalized username matches and whose stored hash
verifies the password; in every other case the session is unchanged and the
single generic failure message is flashed. -/
theorem C5_login_iff (uf pf : String) (db : DB) (sess : Option Nat)
    (hnodup : (db.users.map User.username).Nodup) :
    (∀ u ∈ db.users, u.username = stripLower uf → check_password_hash u.password pf = true →
        login uf pf db sess = (some u.id, .redirectTo "dashboard" []))
    ∧ ((∀ u ∈ db.users, u.username = stripLower uf → check_password_hash u.password pf = false) →
        login uf pf db sess = (sess, .render "login.html" [.error "Wrong username or password"])) := by
  unfold login
  rcases hf : userByName db (stripLower uf) with _ | v
  · constructor
    · intro u hu hname hcheck
      exfalso
      have := List.find?_eq_none.1 hf u hu
      simp [hname] at this
    · intro _
      simp [hf]
  · have hvname : v.username = stripLower uf := by simpa using List.find?_some hf
    have hvmem : v ∈ db.users := List.mem_of_find?_eq_some hf
    constructor
    · intro u hu hname hcheck
      have huv : u = v :=
        List.inj_on_of_nodup_map hnodup hu hvmem (by rw [hname, hvname])
      subst huv
      simp [hf, hcheck]
    · intro hall
      have hc := hall v hvmem hvname
      simp [hf, hc]

theorem C5_login_iff_witness :
    login "Alice " "pw1" sampleDB none = (some 1, .redirectTo "dashboard" []) ∧
    login "alice" "wrong" sampleDB none =
      (none, .render "login.html" [.error "Wrong username or password"]) ∧
    login "nobody" "pw1" sampleDB none =
      (none, .render "login.html" [.error "Wrong username or password"]) :=
  ⟨(C5_login_iff "Alice " "pw1" sampleDB none (by decide)).1
      ⟨1, "alice", generate_password_hash "pw1", "Alice", some 2⟩ (by decide) (by decide)
      (by decide),
   (C5_login_iff "alice" "wrong" sampleDB none (by decide)).2 (by decide),
   (C5_login_iff "nobody" "pw1" sampleDB none (by decide)).2 (by decide)⟩

/-- Claim C6: when no todo row carries the requested id with the requesting
user as owner (the id is absent, or the row belongs to someone else),
ToggleTodo and DeleteTodo leave the database unchanged and answer with the
same silent redirect as always. -/
theorem C6_todo_nonowner_noop (uid todo_id : Nat) (db : DB)
    (h : ∀ t ∈ db.todos, t.id = todo_id → t.user_id ≠ uid) :
    toggle_todo uid todo_id db = (db, .redirectTo "dashboard" []) ∧
    delete_todo uid todo_id db = (db, .redirectTo "dashboard" []) := by
  constructor
  · unfold toggle_todo
    rcases hf : List.find? (fun t => t.id == todo_id) db.todos with _ | t
    · simp [hf]
    · have ht := List.mem_of_find?_eq_some hf
      have hid : t.id = todo_id := by simpa using List.find?_some hf
      have hno : t.user_id ≠ uid := h t ht hid
      simp [hf, hno]
  · unfold delete_todo
    have hfilter : db.todos.filter (fun t => !(t.id == todo_id && t.user_id == uid))
        = db.todos := by
      rw [List.filter_eq_self]
      intro t ht
      by_cases h1 : t.id = todo_id
      · have := h t ht h1
        simp [h1, this]
      · simp [h1]
    rw [hfilter]

theorem C6_todo_nonowner_noop_witness :
    toggle_todo 1 3 sampleDB = (sampleDB, .redirectTo "dashboard" []) ∧
    delete_todo 1 3 sampleDB = (sampleDB, .redirectTo "dashboard" []) :=
  C6_todo_nonowner_noop 1 3 sampleDB (by decide)

/-- Claim C7: the per-user todo listing contains exactly the user's rows,
pairwise ordered by done ascending and, within equal done, creation time
descending; the dashboard serves precisely this listing for the current user
and, when linked, for the partner. -/
theorem C7_list_for_user_ordering (uid : Nat) (db : DB) (cu : User)
    (hu : userById db uid = some cu) :
    List.Perm (listForUser db uid) (db.todos.filter (fun t => t.user_id == uid))
    ∧ List.Pairwise
        (fun a b => a.done < b.done ∨ (a.done = b.done ∧ b.created_at ≤ a.created_at))
        (listForUser db uid)
    ∧ (∀ my ptodos, dashboard uid db = some (my, ptodos) →
        my = listForUser db cu.id ∧
        ∀ p, get_partner db (some cu) = some p → ptodos = listForUser db p.id) := by
  refine ⟨?_, ?_, ?_⟩
  · unfold listForUser
    exact List.mergeSort_perm _ _
  · unfold listForUser
    refine (List.sorted_mergeSort todoOrder_trans todoOrder_total _).imp ?_
    intro a b h
    simpa only [todoOrder, Bool.or_eq_true, Bool.and_eq_true, decide_eq_true_eq,
      beq_iff_eq] using h
  · intro my ptodos hd
    unfold dashboard at hd
    simp only [hu] at hd
    rcases hgp : get_partner db (some cu) with _ | p0 <;> simp only [hgp] at hd
    · obtain ⟨h1, h2⟩ := Prod.mk.injEq .. ▸ Option.some.inj hd
      exact ⟨h1.symm, fun p hp => Option.noConfusion hp⟩
    · obtain ⟨h1, h2⟩ := Prod.mk.injEq .. ▸ Option.some.inj hd
      refine ⟨h1.symm, fun p hp => ?_⟩
      rw [← Option.some.inj hp, ← h2]

theorem C7_list_for_user_ordering_witness :
    List.Perm (listForUser sampleDB 1)
      (sampleDB.todos.filter (fun t => t.user_id == 1)) :=
  (C7_list_for_user_ordering 1 sampleDB
    ⟨1, "alice", generate_password_hash "pw1", "Alice", some 2⟩ (by decide)).1

/-- Claim C8: viewing the notes page first sets the read flag on every note
addressed to the user, and then returns exactly the notes where the user is
sender or receiver, newest first, each carrying the display names of sender
and receiver. -/
theorem C8_notes_mark_read_and_list (uid : Nat) (db : DB) (cu : User)
    (hu : userById db uid = some cu)
    (hvalid : ∀ n ∈ db.notes,
      (userById db n.from_user).isSome ∧ (userById db n.to_user).isSome) :
    (notes uid db).1.notes = db.notes.map (markRead uid)
    ∧ (∀ n ∈ (notes uid db).1.notes, n.to_user = uid → n.read = 1)
    ∧ (∀ l, (notes uid db).2 = some l →
        List.Perm (l.map NoteView.note)
          ((db.notes.map (markRead uid)).filter
            (fun n => n.from_user == uid || n.to_user == uid))
        ∧ List.Pairwise (fun a b => b.note.created_at ≤ a.note.created_at) l
        ∧ ∀ nv ∈ l,
            (∃ s, userById db nv.note.from_user = some s ∧ nv.sender_name = s.display_name)
            ∧ (∃ r, userById db nv.note.to_user = some r ∧ nv.receiver_name = r.display_name)) := by
  have hcid : cu.id = uid := by simpa using List.find?_some hu
  subst hcid
  have hvalid' : ∀ n ∈ (db.notes.map (markRead cu.id)).filter
      (fun n => n.from_user == cu.id || n.to_user == cu.id),
      (findUser db.users n.from_user).isSome ∧ (findUser db.users n.to_user).isSome := by
    intro n hn
    have hn' : n ∈ db.notes.map (markRead cu.id) := List.mem_of_mem_filter hn
    obtain ⟨m, hm, rfl⟩ := List.mem_map.1 hn'
    rw [markRead_from, markRead_to]
    exact hvalid m hm
  unfold notes
  simp only [hu]
  refine ⟨trivial, ?_, ?_⟩
  · intro n hn hto
    obtain ⟨m, hm, rfl⟩ := List.mem_map.1 hn
    unfold markRead at hto ⊢
    by_cases h : m.to_user = cu.id
    · simp [h]
    · rw [if_neg (by simpa using h)] at hto
      exact absurd hto h
  · intro l hl
    have hl' := (Option.some.inj hl).symm
    subst hl'
    refine ⟨?_, ?_, ?_⟩
    · have h1 := (List.mergeSort_perm
        (((db.notes.map (markRead cu.id)).filter
            (fun n => n.from_user == cu.id || n.to_user == cu.id)).filterMap
          (annotateNote db.users)) noteOrder).map NoteView.note
      rw [annotate_map_note db.users _ hvalid'] at h1
      exact h1
    · refine (List.sorted_mergeSort noteOrder_trans noteOrder_total _).imp ?_
      intro a b h
      simpa only [noteOrder, decide_eq_true_eq] using h
    · intro nv hnv
      rw [List.mem_mergeSort] at hnv
      exact annotate_mem db.users nv _ hnv

theorem C8_notes_mark_read_and_list_witness :
    (notes 2 sampleDB).1.notes = sampleDB.notes.map (markRead 2) ∧
    ∀ n ∈ (notes 2 sampleDB).1.notes, n.to_user = 2 → n.read = 1 :=
  ⟨(C8_notes_mark_read_and_list 2 sampleDB
      ⟨2, "bob", generate_password_hash "pw2", "Bob", some 1⟩
      (by decide) (by decide)).1,
   (C8_notes_mark_read_and_list 2 sampleDB
      ⟨2, "bob", generate_password_hash "pw2", "Bob", some 1⟩
      (by decide) (by decide)).2.1⟩

/-- Claim C9: a LinkPartner whose normalized target username is not found, or
whose target is the current user, flashes a non-fatal message and changes no
state; in particular a self-link of a previously unlinked user leaves the
partner reference unset. -/
theorem C9_link_partner_errors_no_state_change (uid : Nat) (pu : String) (db : DB) :
    (userByName db (stripLower pu) = none →
      link_partner uid pu db =
        (db, .render "link_partner.html" [.error "Could not find that user"]))
    ∧ (∀ p cu, userByName db (stripLower pu) = some p → userById db uid = some cu →
        p.id = cu.id →
        link_partner uid pu db =
          (db, .render "link_partner.html"
            [.error "That is you! Enter the username of your partner"]))
    ∧ (∀ cu, userByName db (stripLower pu) = some cu → userById db uid = some cu →
        cu.partner_id = none →
        (link_partner uid pu db).1 = db ∧
        ∃ a, userById (link_partner uid pu db).1 uid = some a ∧ a.partner_id = none) := by
  refine ⟨?_, ?_, ?_⟩
  · intro h
    unfold link_partner
    simp [h]
  · intro p cu hp hcu heq
    unfold link_partner
    simp [hp, hcu, heq]
  · intro cu hp hcu hunset
    have hdb : (link_partner uid pu db).1 = db := by
      unfold link_partner
      simp [hp, hcu]
    refine ⟨hdb, cu, ?_, hunset⟩
    rw [hdb]
    exact hcu

theorem C9_link_partner_errors_no_state_change_witness :
    link_partner 3 "nobody" sampleDB =
      (sampleDB, .render "link_partner.html" [.error "Could not find that user"]) ∧
    link_partner 3 " Carol " sampleDB =
      (sampleDB, .render "link_partner.html"
        [.error "That is you! Enter the username of your partner"]) ∧
    ((link_partner 3 " Carol " sampleDB).1 = sampleDB ∧
     ∃ a, userById (link_partner 3 " Carol " sampleDB).1 3 = some a ∧ a.partner_id = none) :=
  ⟨(C9_link_partner_errors_no_state_change 3 "nobody" sampleDB).1 (by decide),
   (C9_link_partner_errors_no_state_change 3 " Carol " sampleDB).2.1
     ⟨3, "carol", generate_password_hash "pw3", "Carol", none⟩
     ⟨3, "carol", generate_password_hash "pw3", "Carol", none⟩
     (by decide) (by decide) (by decide),
   (C9_link_partner_errors_no_state_change 3 " Carol " sampleDB).2.2
     ⟨3, "carol", generate_password_hash "pw3", "Carol", none⟩
     (by decide) (by decide) (by decide)⟩

/-- Claim C10: Register validates nothing but uniqueness — whenever the
normalized username is not taken, the account is created with exactly the
given values (a whitespace-only username becomes the empty string, password
and display name may be empty) and the only rejection path is the uniqueness
conflict. -/
theorem C10_register_no_validation (uf df pf : String) (db : DB)
    (h : ∀ u ∈ db.users, u.username ≠ stripLower uf) :
    register uf df pf db =
      ({ db with
          users := db.users ++
            [{ id := db.nextUserId, username := stripLower uf,
               password := generate_password_hash pf, display_name := pyStrip df,
               partner_id := none }],
          nextUserId := db.nextUserId + 1 },
       .redirectTo "login" [.success "Account created! Log in now"]) := by
  unfold register
  dsimp only
  rw [if_neg]
  simp only [List.any_eq_true, beq_iff_eq, not_exists]
  intro u
  rw [not_and]
  exact h u

theorem C10_register_no_validation_witness :
    (∀ u ∈ initDB.users, u.username ≠ stripLower "   ") ∧
    register "   " "" "" initDB =
      ({ initDB with
          users := [{ id := 1, username := "", password := generate_password_hash "",
                      display_name := "", partner_id := none }],
          nextUserId := 2 },
       .redirectTo "login" [.success "Account created! Log in now"]) :=
  ⟨by decide, C10_register_no_validation "   " "" "" initDB (by decide)⟩

end Twodo
